import Mathlib

/-
  Verification development for the sea-be meal-subscription backend.

  Shallow embedding notes:
  - Go float64 values (prices, growth percentages) are modelled as exact
    rationals (ℚ); Go time.Time values are modelled as integers (ℤ), with
    t1.Before(t2) = (t1 < t2) and t1.After(t2) = (t2 < t1).
  - Go `type MealType string` / `type DeliveryDay string` are open string
    types, so they are modelled as String; SubscriptionStatus is compared
    only against its three constants, so it is a closed inductive here.
  - The SQL store is modelled as in-memory lists of rows keyed by id
    (primary keys assumed unique, as the database enforces).
  - Environmental failures of the primary store (network, SQL errors) are
    not modelled; the audit store's failure modes are modelled explicitly
    because the code branches on them.
-/

namespace SeaBe

/-- Subscription status, from internal/entity/subscription.go
(StatusActive, StatusPaused, StatusCancelled). -/
inductive SubscriptionStatus where
  | active
  | paused
  | cancelled
deriving DecidableEq, Repr

/-- The string stored in the status column for each status constant. -/
def statusToString : SubscriptionStatus → String
  | .active => "active"
  | .paused => "paused"
  | .cancelled => "cancelled"

/-- Subscription entity, from internal/entity/subscription.go.
MealTypes and DeliveryDays are Go string-typed slices; PauseStartDate and
PauseEndDate are nullable timestamps. -/
structure Subscription where
  id : String
  userId : String
  mealPlanId : String
  mealTypes : List String
  deliveryDays : List String
  allergies : String
  totalPrice : ℚ
  status : SubscriptionStatus
  pauseStartDate : Option ℤ
  pauseEndDate : Option ℤ
  createdAt : ℤ
  updatedAt : ℤ
deriving DecidableEq, Repr

/-- Meal plan entity, from internal/entity/meal_plan.go. -/
structure MealPlan where
  id : String
  name : String
  description : String
  price : ℚ
  imageUrl : String
  features : List String
  isActive : Bool
  createdAt : ℤ
  updatedAt : ℤ
deriving DecidableEq, Repr

/-- StringSliceContains from pkg/utils/utils.go. -/
def StringSliceContains (slice : List String) (s : String) : Bool :=
  slice.contains s

/-- strings.ToLower, modelled character by character so that it reduces in
the kernel (ASCII-faithful, which covers every enumeration the validators
compare against). -/
def goToLower (s : String) : String := ⟨s.data.map Char.toLower⟩

/-- ValidateMealTypes from pkg/utils/utils.go: error when the list is empty
or any element (lower-cased) is not among breakfast, lunch, dinner.
Returns the error message, none on success. -/
def ValidateMealTypes (mealTypes : List String) : Option String :=
  if mealTypes.isEmpty then some "at least one meal type must be selected"
  else
    match mealTypes.find? (fun mt => !StringSliceContains ["breakfast", "lunch", "dinner"] (goToLower mt)) with
    | some mt => some ("invalid meal type: " ++ mt)
    | none => none

/-- ValidateDeliveryDays from pkg/utils/utils.go: error when the list is
empty or any element (lower-cased) is not a weekday name. -/
def ValidateDeliveryDays (deliveryDays : List String) : Option String :=
  if deliveryDays.isEmpty then some "at least one delivery day must be selected"
  else
    match deliveryDays.find? (fun day => !StringSliceContains
        ["monday", "tuesday", "wednesday", "thursday", "friday", "saturday", "sunday"] (goToLower day)) with
    | some day => some ("invalid delivery day: " ++ day)
    | none => none

/-- CalculateSubscriptionPrice from pkg/utils/utils.go:
planPrice * len(mealTypes) * len(deliveryDays) * 4.3, with float64
arithmetic idealised as exact rational arithmetic. -/
def CalculateSubscriptionPrice (planPrice : ℚ) (mealTypes deliveryDays : List String) : ℚ :=
  planPrice * (mealTypes.length : ℚ) * (deliveryDays.length : ℚ) * (43 / 10)

/-- The relational store: the subscriptions table and the meal_plans table. -/
structure Db where
  subs : List Subscription
  plans : List MealPlan
deriving DecidableEq, Repr

/-- One invocation of LogSubscriptionAction: the arguments the repository
passes to the audit writer when a transition is persisted. -/
structure AuditCall where
  subscriptionId : String
  userId : String
  action : String
  oldStatus : String
  newStatus : String
deriving DecidableEq, Repr

/-- A row of the subscription_audit table. -/
structure AuditRecord where
  id : String
  subscriptionId : String
  userId : String
  oldStatus : String
  newStatus : String
  action : String
  createdAt : ℤ
deriving DecidableEq, Repr

/-- LogSubscriptionAction from the subscriptions repository: if the
subscription_audit table is missing (or the existence check fails) the
write is skipped; if the insert fails the failure is only logged. In every
case the function returns nil to its caller. `tableExists = false` covers
both a missing table and a failed existence check; `insertFails` models an
insert-time storage failure. The second component is the returned error. -/
def LogSubscriptionAction (tableExists insertFails : Bool)
    (store : List AuditRecord) (now : ℤ)
    (subscriptionId userId action oldStatus newStatus : String) :
    List AuditRecord × Option String :=
  if !tableExists then (store, none)
  else
    let auditId := subscriptionId ++ "-" ++ toString now
    if insertFails then (store, none)
    else (store ++ [⟨auditId, subscriptionId, userId, oldStatus, newStatus, action, now⟩], none)

/-- mealPlanRepository.GetByID: SELECT ... FROM meal_plans WHERE id = $1.
There is no is_active filter; none models the ErrMealPlanNotFound row-less
case. -/
def mealPlanGetByID (db : Db) (id : String) : Option MealPlan :=
  db.plans.find? (fun p => p.id == id)

/-- subscriptionRepository.GetByID: SELECT ... FROM subscriptions s JOIN
meal_plans mp ON s.meal_plan_id = mp.id WHERE s.id = $1; no row (including
a dangling meal-plan reference) yields none. -/
def subsGetByID (db : Db) (id : String) : Option (Subscription × MealPlan) :=
  match db.subs.find? (fun s => s.id == id) with
  | none => none
  | some s =>
    match db.plans.find? (fun p => p.id == s.mealPlanId) with
    | none => none
    | some p => some (s, p)

/-- subscriptionRepository.GetSubscriptionByIDForReactivation: same SELECT
but without the meal_plans join. -/
def getSubscriptionByIDForReactivation (db : Db) (id : String) : Option Subscription :=
  db.subs.find? (fun s => s.id == id)

/-- subscriptionRepository.Create: INSERT the row, then call
LogSubscriptionAction with action "created" and empty old status. The
second component lists the audit-writer invocations made. -/
def repoCreate (db : Db) (sub : Subscription) : Db × List AuditCall :=
  ({ db with subs := db.subs ++ [sub] },
   [⟨sub.id, sub.userId, "created", "", statusToString sub.status⟩])

/-- The audit action label computed inside subscriptionRepository.Update:
action starts as "updated" and is refined only when the stored (old) status
string differs from the new status. -/
def deriveAction (oldStatus : String) (newStatus : SubscriptionStatus) : String :=
  if oldStatus ≠ statusToString newStatus then
    if oldStatus == "cancelled" && newStatus == .active then "reactivated"
    else if newStatus == .cancelled then "cancelled"
    else if newStatus == .paused then "paused"
    else if newStatus == .active && oldStatus == "paused" then "resumed"
    else "updated"
  else "updated"

/-- subscriptionRepository.Update: reads the old status of the row, runs
UPDATE subscriptions SET meal_types, delivery_days, allergies, total_price,
status, pause_start_date, pause_end_date, updated_at WHERE id = $1 (note:
user_id, meal_plan_id and created_at are not written), returns ErrNoRows
when no row matched, and otherwise calls LogSubscriptionAction with the
derived action. Result: (new store, returned error, audit calls). -/
def repoUpdate (db : Db) (sub : Subscription) (now : ℤ) :
    Db × Option String × List AuditCall :=
  let oldStatus : String :=
    match db.subs.find? (fun r => r.id == sub.id) with
    | some r => statusToString r.status
    | none => ""
  let affected := db.subs.any (fun r => r.id == sub.id)
  let subs2 := db.subs.map (fun r =>
    if r.id == sub.id then
      { r with
        mealTypes := sub.mealTypes
        deliveryDays := sub.deliveryDays
        allergies := sub.allergies
        totalPrice := sub.totalPrice
        status := sub.status
        pauseStartDate := sub.pauseStartDate
        pauseEndDate := sub.pauseEndDate
        updatedAt := now }
    else r)
  if affected then
    ({ db with subs := subs2 }, none,
     [⟨sub.id, sub.userId, deriveAction oldStatus sub.status, oldStatus, statusToString sub.status⟩])
  else (db, some "sql: no rows in result set", [])

/-- subscriptionRepository.GetExpiredSubscriptions: SELECT ... WHERE
status = 'paused' AND pause_end_date < NOW() (a NULL pause_end_date never
compares true). -/
def GetExpiredSubscriptions (db : Db) (now : ℤ) : List Subscription :=
  db.subs.filter (fun s =>
    decide (s.status = .paused) &&
    match s.pauseEndDate with
    | some e => decide (e < now)
    | none => false)

/-- subscriptionRepository.BulkUpdateStatus: no-op on an empty id list,
otherwise UPDATE subscriptions SET status = $1, updated_at = $2 WHERE
id = ANY($3). Pause dates are not touched and no audit call is made. -/
def BulkUpdateStatus (db : Db) (ids : List String) (status : SubscriptionStatus) (now : ℤ) :
    Db × List AuditCall :=
  if ids.isEmpty then (db, [])
  else
    ({ db with subs := db.subs.map (fun s =>
        if ids.contains s.id then { s with status := status, updatedAt := now } else s) },
     [])

/-- adminRepository.ForceCancelSubscription: UPDATE subscriptions SET
status = 'cancelled', pause_start_date = NULL, pause_end_date = NULL,
updated_at WHERE id = $1 AND status != 'cancelled'; error when no row was
affected. No audit call is made on this path. -/
def ForceCancelSubscription (db : Db) (now : ℤ) (id : String) :
    Db × List AuditCall × Option String :=
  let affected := db.subs.any (fun s => s.id == id && decide (s.status ≠ .cancelled))
  let subs2 := db.subs.map (fun s =>
    if s.id == id && decide (s.status ≠ .cancelled) then
      { s with
        status := .cancelled
        pauseStartDate := none
        pauseEndDate := none
        updatedAt := now }
    else s)
  if affected then ({ db with subs := subs2 }, [], none)
  else (db, [], some "subscription not found or already cancelled")

/-- Errors the subscription service can return, from
internal/api/subscriptions/error.go; `other` covers the fmt.Errorf values
built inline in the service. -/
inductive SubErr where
  | ErrSubscriptionNotFound
  | ErrInvalidMealPlan
  | ErrInvalidMealTypes
  | ErrInvalidDeliveryDays
  | ErrSubscriptionCancelled
  | ErrInvalidPauseDates
  | ErrUnauthorizedAccess
  | other (msg : String)
deriving DecidableEq, Repr

/-- Request body for Create and Update, from
internal/api/subscriptions/dto.go (CreateSubscriptionRequest). -/
structure CreateSubscriptionRequest where
  name : String
  phoneNumber : String
  mealPlanId : String
  mealTypes : List String
  deliveryDays : List String
  allergies : String
deriving DecidableEq, Repr

/-- Outcome of subscriptionService.CreateSubscription: the returned
subscription joined with its plan, a returned error, or the runtime panic
raised by the unchecked interface conversion on ctx.Value. -/
inductive CreateOutcome where
  | ok (sub : Subscription) (plan : MealPlan)
  | err (e : SubErr)
  | panicInterfaceConversion
deriving DecidableEq, Repr

/-- subscriptionService.CreateSubscription: validate meal types, validate
delivery days, resolve the meal plan (any failure or missing plan maps to
ErrInvalidMealPlan), compute the price, read the owner id from the request
context with `ctx.Value("user_id").(string)` — a panic when the context
carries no string value — build the entity with status active and null
pause dates, insert it, and re-read it with the plan join. `ctxUserId` is
the context value, `newId` the generated ULID, `now` the clock. -/
def CreateSubscription (db : Db) (ctxUserId : Option String) (newId : String)
    (now : ℤ) (req : CreateSubscriptionRequest) :
    Db × List AuditCall × CreateOutcome :=
  if (ValidateMealTypes req.mealTypes).isSome then
    (db, [], .err .ErrInvalidMealTypes)
  else if (ValidateDeliveryDays req.deliveryDays).isSome then
    (db, [], .err .ErrInvalidDeliveryDays)
  else
    match mealPlanGetByID db req.mealPlanId with
    | none => (db, [], .err .ErrInvalidMealPlan)
    | some mealPlan =>
      let totalPrice := CalculateSubscriptionPrice mealPlan.price req.mealTypes req.deliveryDays
      match ctxUserId with
      | none => (db, [], .panicInterfaceConversion)
      | some userId =>
        let sub : Subscription :=
          { id := newId
            userId := userId
            mealPlanId := req.mealPlanId
            mealTypes := req.mealTypes
            deliveryDays := req.deliveryDays
            allergies := req.allergies
            totalPrice := totalPrice
            status := .active
            pauseStartDate := none
            pauseEndDate := none
            createdAt := now
            updatedAt := now }
        let created := repoCreate db sub
        match subsGetByID created.1 newId with
        | none => (created.1, created.2, .err (.other "failed to get subscription details"))
        | some sp => (created.1, created.2, .ok sp.1 sp.2)

/-- subscriptionService.PauseSubscription: reject with ErrInvalidPauseDates
when startDate.After(endDate) or startDate.Before(now); then load the row,
check ownership, require status active (any other status is reported as
ErrSubscriptionCancelled), and persist status paused with the requested
pause window. Result: (new store, audit calls, returned error). -/
def PauseSubscription (db : Db) (now : ℤ) (subscriptionId userId : String)
    (startDate endDate : ℤ) : Db × List AuditCall × Option SubErr :=
  if endDate < startDate ∨ startDate < now then
    (db, [], some .ErrInvalidPauseDates)
  else
    match subsGetByID db subscriptionId with
    | none => (db, [], some .ErrSubscriptionNotFound)
    | some sp =>
      if sp.1.userId ≠ userId then (db, [], some .ErrUnauthorizedAccess)
      else if sp.1.status ≠ .active then (db, [], some .ErrSubscriptionCancelled)
      else
        let sub2 := { sp.1 with
          status := .paused
          pauseStartDate := some startDate
          pauseEndDate := some endDate }
        let res := repoUpdate db sub2 now
        (res.1, res.2.2,
         match res.2.1 with
         | none => none
         | some _ => some (.other "failed to pause subscription"))

/-- subscriptionService.ResumeSubscription: load the row, check ownership,
require status paused, and persist status active with both pause dates
cleared. -/
def ResumeSubscription (db : Db) (now : ℤ) (subscriptionId userId : String) :
    Db × List AuditCall × Option SubErr :=
  match subsGetByID db subscriptionId with
  | none => (db, [], some .ErrSubscriptionNotFound)
  | some sp =>
    if sp.1.userId ≠ userId then (db, [], some .ErrUnauthorizedAccess)
    else if sp.1.status ≠ .paused then (db, [], some (.other "subscription is not paused"))
    else
      let sub2 := { sp.1 with
        status := .active
        pauseStartDate := none
        pauseEndDate := none }
      let res := repoUpdate db sub2 now
      (res.1, res.2.2,
       match res.2.1 with
       | none => none
       | some _ => some (.other "failed to resume subscription"))

/-- subscriptionService.CancelSubscription: load the row, check ownership,
reject when already cancelled, and persist status cancelled with both pause
dates cleared. -/
def CancelSubscription (db : Db) (now : ℤ) (subscriptionId userId : String) :
    Db × List AuditCall × Option SubErr :=
  match subsGetByID db subscriptionId with
  | none => (db, [], some .ErrSubscriptionNotFound)
  | some sp =>
    if sp.1.userId ≠ userId then (db, [], some .ErrUnauthorizedAccess)
    else if sp.1.status = .cancelled then (db, [], some (.other "subscription is already cancelled"))
    else
      let sub2 := { sp.1 with
        status := .cancelled
        pauseStartDate := none
        pauseEndDate := none }
      let res := repoUpdate db sub2 now
      (res.1, res.2.2,
       match res.2.1 with
       | none => none
       | some _ => some (.other "failed to cancel subscription"))

/-- subscriptionService.ReactivateSubscription: load the row without the
plan join, check ownership, require status cancelled (the error message
names the current status), and persist status active with pause dates
cleared and updatedAt refreshed. -/
def ReactivateSubscription (db : Db) (now : ℤ) (subscriptionId userId : String) :
    Db × List AuditCall × Option SubErr :=
  match getSubscriptionByIDForReactivation db subscriptionId with
  | none => (db, [], some (.other "failed to get subscription: subscription not found"))
  | some sub =>
    if sub.userId ≠ userId then (db, [], some .ErrUnauthorizedAccess)
    else if sub.status ≠ .cancelled then
      (db, [], some (.other ("only cancelled subscriptions can be reactivated, current status: "
        ++ statusToString sub.status)))
    else
      let sub2 := { sub with
        status := .active
        pauseStartDate := none
        pauseEndDate := none
        updatedAt := now }
      let res := repoUpdate db sub2 now
      (res.1, res.2.2,
       match res.2.1 with
       | none => none
       | some _ => some (.other "failed to reactivate subscription"))

/-- subscriptionService.UpdateSubscription: validate meal types and
delivery days, load the row, check ownership, forbid updating a cancelled
subscription, resolve the meal plan (failure maps to ErrInvalidMealPlan),
recompute the price, and persist the updated fields. The in-memory entity
also gets the new mealPlanId, but repoUpdate's SQL does not write that
column. -/
def UpdateSubscription (db : Db) (now : ℤ) (subscriptionId userId : String)
    (req : CreateSubscriptionRequest) : Db × List AuditCall × Option SubErr :=
  if (ValidateMealTypes req.mealTypes).isSome then
    (db, [], some .ErrInvalidMealTypes)
  else if (ValidateDeliveryDays req.deliveryDays).isSome then
    (db, [], some .ErrInvalidDeliveryDays)
  else
    match subsGetByID db subscriptionId with
    | none => (db, [], some .ErrSubscriptionNotFound)
    | some sp =>
      if sp.1.userId ≠ userId then (db, [], some .ErrUnauthorizedAccess)
      else if sp.1.status = .cancelled then (db, [], some (.other "cannot update cancelled subscription"))
      else
        match mealPlanGetByID db req.mealPlanId with
        | none => (db, [], some .ErrInvalidMealPlan)
        | some mealPlan =>
          let totalPrice := CalculateSubscriptionPrice mealPlan.price req.mealTypes req.deliveryDays
          let sub2 := { sp.1 with
            mealPlanId := req.mealPlanId
            mealTypes := req.mealTypes
            deliveryDays := req.deliveryDays
            allergies := req.allergies
            totalPrice := totalPrice }
          let res := repoUpdate db sub2 now
          (res.1, res.2.2,
           match res.2.1 with
           | none => none
           | some _ => some (.other "failed to update subscription"))

/-- SubscriptionStatsResponse from internal/api/subscriptions/dto.go; the
Go int counters are ℤ, MonthlyRevenue (float64) is ℚ, the by-plan map is an
association list. -/
structure SubscriptionStatsResponse where
  totalSubscriptions : ℤ
  activeSubscriptions : ℤ
  pausedSubscriptions : ℤ
  cancelledSubscriptions : ℤ
  monthlyRevenue : ℚ
  newSubscriptions : ℤ
  reactivations : ℤ
  subscriptionsByPlan : List (String × ℤ)
deriving DecidableEq, Repr

/-- Go conversion float64 → int: truncation toward zero. -/
def goTruncTowardZero (q : ℚ) : ℤ := if q < 0 then ⌈q⌉ else ⌊q⌋

/-- calculateSubscriptionGrowth from the subscription handler: 0 when
TotalSubscriptions is 0, otherwise
(NewSubscriptions + Reactivations) / TotalSubscriptions * 100 with the
result truncated to two decimals via float64(int(growth*100)) / 100. -/
def calculateSubscriptionGrowth (stats : SubscriptionStatsResponse) : ℚ :=
  if stats.totalSubscriptions = 0 then 0
  else
    ((goTruncTowardZero (((stats.newSubscriptions + stats.reactivations : ℤ) : ℚ)
      / ((stats.totalSubscriptions : ℤ) : ℚ) * 100 * 100) : ℤ) : ℚ) / 100

/-- Modelled from the spec for comparison (claim C8's words): growth is
(newInPeriod + reactivationsInPeriod) / activeCount × 100 rounded half-up
to two decimal places, and 0 when the active count is 0. -/
def specSubscriptionGrowth (stats : SubscriptionStatsResponse) : ℚ :=
  if stats.activeSubscriptions = 0 then 0
  else
    let growth : ℚ := ((stats.newSubscriptions + stats.reactivations : ℤ) : ℚ)
      / ((stats.activeSubscriptions : ℤ) : ℚ) * 100
    ((⌊growth * 100 + 1 / 2⌋ : ℤ) : ℚ) / 100

/-- Modelled from the spec for comparison (claim C8 as amended): same
shape as the code, stated over the total count with truncation toward
zero, combining the factors into a single fraction. -/
def amendedSubscriptionGrowth (stats : SubscriptionStatsResponse) : ℚ :=
  if stats.totalSubscriptions = 0 then 0
  else
    ((goTruncTowardZero (((stats.newSubscriptions + stats.reactivations : ℤ) : ℚ) * 10000
      / ((stats.totalSubscriptions : ℤ) : ℚ)) : ℤ) : ℚ) / 100

/-- Modelled from the spec for comparison (claim C7's words): the audit
action label as the spec derives it, an ordered case split on the old and
new status. -/
def specActionLabel (oldStatus newStatus : SubscriptionStatus) : String :=
  if oldStatus = .cancelled ∧ newStatus = .active then "reactivated"
  else if oldStatus = .paused ∧ newStatus = .active then "resumed"
  else if newStatus = .paused then "paused"
  else if newStatus = .cancelled then "cancelled"
  else "updated"

/-- The pause-date invariant exactly as claim C2 states it: both dates
null, or both set with pauseStartDate < pauseEndDate and only while the
status is paused. -/
def pauseDatesClaimInv (s : Subscription) : Bool :=
  match s.pauseStartDate, s.pauseEndDate with
  | none, none => true
  | some a, some b => decide (a < b) && decide (s.status = .paused)
  | _, _ => false

/-- The weaker pause-date invariant the code actually maintains: both
dates null, or both set with pauseStartDate ≤ pauseEndDate (regardless of
status). -/
def pauseDatesWeakInv (s : Subscription) : Bool :=
  match s.pauseStartDate, s.pauseEndDate with
  | none, none => true
  | some a, some b => decide (a ≤ b)
  | _, _ => false

/-- The weak invariant over every row of the subscriptions table. -/
def dbWeakInv (db : Db) : Bool := db.subs.all pauseDatesWeakInv

/-- subscriptionService.ProcessExpiredPauses: collect paused subscriptions
whose pause_end_date has passed; when there are none, return immediately;
otherwise bulk-set their status to active. -/
def ProcessExpiredPauses (db : Db) (now : ℤ) : Db × List AuditCall × Option String :=
  let expired := GetExpiredSubscriptions db now
  if expired.isEmpty then (db, [], none)
  else
    let bulk := BulkUpdateStatus db (expired.map (fun s => s.id)) .active now
    (bulk.1, bulk.2, none)

/-- True exactly when a CreateSubscription outcome is a success. -/
def okOutcome : CreateOutcome → Bool
  | .ok _ _ => true
  | _ => false

/-- The entity literal CreateSubscription builds before inserting it:
generated id, owner from the context, request fields, computed price,
status active, null pause window, both timestamps set to the clock. -/
def mkCreatedSub (uid newId : String) (now : ℤ) (req : CreateSubscriptionRequest)
    (plan : MealPlan) : Subscription :=
  { id := newId, userId := uid, mealPlanId := req.mealPlanId
    mealTypes := req.mealTypes, deliveryDays := req.deliveryDays, allergies := req.allergies
    totalPrice := CalculateSubscriptionPrice plan.price req.mealTypes req.deliveryDays
    status := .active, pauseStartDate := none, pauseEndDate := none
    createdAt := now, updatedAt := now }

/-- Fixture: the "Diet" plan used by the pricing scenario. -/
def planC1 : MealPlan :=
  { id := "p1", name := "Diet", description := "", price := 30000, imageUrl := ""
    features := [], isActive := true, createdAt := 0, updatedAt := 0 }

/-- Fixture: empty store holding only the Diet plan. -/
def dbC1 : Db := { subs := [], plans := [planC1] }

/-- Fixture: the pricing scenario request - two meal types, three delivery
days, plan p1. -/
def reqC1 : CreateSubscriptionRequest :=
  { name := "Alice", phoneNumber := "0812", mealPlanId := "p1"
    mealTypes := ["breakfast", "lunch"], deliveryDays := ["monday", "wednesday", "friday"]
    allergies := "" }

/-- Fixture: a paused subscription whose pause window has expired. -/
def subC2 : Subscription :=
  { id := "s1", userId := "u1", mealPlanId := "p1"
    mealTypes := ["breakfast"], deliveryDays := ["monday"], allergies := ""
    totalPrice := 100, status := .paused
    pauseStartDate := some 0, pauseEndDate := some 5, createdAt := 0, updatedAt := 0 }

/-- Fixture: store with the expired paused subscription. -/
def dbC2 : Db := { subs := [subC2], plans := [planC1] }

/-- Fixture: a weak-invariant-satisfying store for the C2 witness. -/
def dbC2w : Db :=
  { subs := [{ id := "s1", userId := "u1", mealPlanId := "p1"
               mealTypes := ["breakfast"], deliveryDays := ["monday"], allergies := ""
               totalPrice := 100, status := .active
               pauseStartDate := none, pauseEndDate := none, createdAt := 0, updatedAt := 0 }]
    plans := [planC1] }

/-- Fixture: an active subscription for the pause-date claims. -/
def dbC3 : Db :=
  { subs := [{ id := "s1", userId := "u1", mealPlanId := "p1"
               mealTypes := ["breakfast"], deliveryDays := ["monday"], allergies := ""
               totalPrice := 100, status := .active
               pauseStartDate := none, pauseEndDate := none, createdAt := 0, updatedAt := 0 }]
    plans := [planC1] }

/-- Fixture: a paused subscription (for pausing a paused subscription). -/
def dbC4p : Db :=
  { subs := [{ id := "s1", userId := "u1", mealPlanId := "p1"
               mealTypes := ["breakfast"], deliveryDays := ["monday"], allergies := ""
               totalPrice := 100, status := .paused
               pauseStartDate := some 1, pauseEndDate := some 2, createdAt := 0, updatedAt := 0 }]
    plans := [planC1] }

/-- Fixture: a cancelled subscription (for pausing a cancelled
subscription). -/
def dbC4c : Db :=
  { subs := [{ id := "s2", userId := "u1", mealPlanId := "p1"
               mealTypes := ["breakfast"], deliveryDays := ["monday"], allergies := ""
               totalPrice := 100, status := .cancelled
               pauseStartDate := none, pauseEndDate := none, createdAt := 0, updatedAt := 0 }]
    plans := [planC1] }

/-- Fixture: store with one expired paused subscription, for the audit
coverage counterexample. -/
def dbC5 : Db :=
  { subs := [{ id := "s1", userId := "u1", mealPlanId := "p1"
               mealTypes := ["breakfast"], deliveryDays := ["monday"], allergies := ""
               totalPrice := 100, status := .paused
               pauseStartDate := some 0, pauseEndDate := some 5, createdAt := 0, updatedAt := 0 }]
    plans := [planC1] }

/-- Fixture: store with one active subscription, for the force-cancel
audit counterexample. -/
def dbC5f : Db :=
  { subs := [{ id := "f1", userId := "u1", mealPlanId := "p1"
               mealTypes := ["breakfast"], deliveryDays := ["monday"], allergies := ""
               totalPrice := 100, status := .active
               pauseStartDate := none, pauseEndDate := none, createdAt := 0, updatedAt := 0 }]
    plans := [planC1] }

/-- Fixture: stored row for the C5 witness (an active subscription). -/
def rowC5w : Subscription :=
  { id := "s1", userId := "u1", mealPlanId := "p1"
    mealTypes := ["breakfast"], deliveryDays := ["monday"], allergies := ""
    totalPrice := 100, status := .active
    pauseStartDate := none, pauseEndDate := none, createdAt := 0, updatedAt := 0 }

/-- Fixture: store holding rowC5w. -/
def dbC5w : Db := { subs := [rowC5w], plans := [planC1] }

/-- Fixture: the entity written back for the C5 witness: rowC5w paused. -/
def subC5w : Subscription :=
  { rowC5w with status := .paused, pauseStartDate := some 8, pauseEndDate := some 9 }

/-- Fixture: stored row whose status is paused, for the action-label
claims. -/
def rowC7 : Subscription :=
  { id := "s1", userId := "u1", mealPlanId := "p1"
    mealTypes := ["breakfast"], deliveryDays := ["monday"], allergies := ""
    totalPrice := 100, status := .paused
    pauseStartDate := some 1, pauseEndDate := some 2, createdAt := 0, updatedAt := 0 }

/-- Fixture: store holding rowC7. -/
def dbC7 : Db := { subs := [rowC7], plans := [planC1] }

/-- Fixture: an update of rowC7 that keeps status paused. -/
def subC7upd : Subscription := { rowC7 with allergies := "peanut" }

/-- Fixture: an update of rowC7 that resumes it, for the C7 witness. -/
def subC7res : Subscription :=
  { rowC7 with status := .active, pauseStartDate := none, pauseEndDate := none }

/-- Fixture: stats with one total subscription, zero active, one new - the
point separating division by total from division by active. -/
def statsC8 : SubscriptionStatsResponse :=
  { totalSubscriptions := 1, activeSubscriptions := 0, pausedSubscriptions := 0
    cancelledSubscriptions := 1, monthlyRevenue := 0, newSubscriptions := 1
    reactivations := 0, subscriptionsByPlan := [] }

/-- Fixture: an existing but inactive meal plan. -/
def planC9 : MealPlan :=
  { id := "p2", name := "Old Plan", description := "", price := 25000, imageUrl := ""
    features := [], isActive := false, createdAt := 0, updatedAt := 0 }

/-- Fixture: store holding only the inactive plan. -/
def dbC9 : Db := { subs := [], plans := [planC9] }

/-- Fixture: a valid request referencing the inactive plan. -/
def reqC9 : CreateSubscriptionRequest :=
  { name := "Bob", phoneNumber := "0813", mealPlanId := "p2"
    mealTypes := ["dinner"], deliveryDays := ["friday"], allergies := "" }

/-- Fixture: a plan for the context-user-id claim. -/
def planC10 : MealPlan :=
  { id := "p3", name := "Protein", description := "", price := 40000, imageUrl := ""
    features := [], isActive := true, createdAt := 0, updatedAt := 0 }

/-- Fixture: store holding planC10. -/
def dbC10 : Db := { subs := [], plans := [planC10] }

/-- Fixture: a valid request referencing planC10. -/
def reqC10 : CreateSubscriptionRequest :=
  { name := "Carol", phoneNumber := "0814", mealPlanId := "p3"
    mealTypes := ["lunch"], deliveryDays := ["tuesday"], allergies := "" }

/-- Claim C6: LogSubscriptionAction returns nil to its caller for every
input and every audit-store condition - missing audit table, failed table
check, or failed insert - so a lifecycle operation never fails because of
an audit write. -/
theorem logSubscriptionAction_never_fails (tableExists insertFails : Bool)
    (store : List AuditRecord) (now : ℤ) (sid uid act oldS newS : String) :
    (LogSubscriptionAction tableExists insertFails store now sid uid act oldS newS).2 = none := by
  unfold LogSubscriptionAction
  split
  · rfl
  · split <;> rfl

/-- Claim C6 witness: the insert-failure condition with the table present
still returns nil. -/
theorem logSubscriptionAction_never_fails_witness :
    (LogSubscriptionAction true true [] 0 "s1" "u1" "paused" "active" "paused").2 = none :=
  logSubscriptionAction_never_fails true true [] 0 "s1" "u1" "paused" "active" "paused"

/-- The code's action-label derivation agrees with the spec's ordered case
split exactly when the old and new status differ; when they are equal the
code always records "updated". -/
theorem deriveAction_eq_spec (o n : SubscriptionStatus) :
    deriveAction (statusToString o) n = if o = n then "updated" else specActionLabel o n := by
  cases o <;> cases n <;> rfl

/-- Claim C7 counterexample: a persisted update whose old and new status
are both paused is recorded with action "updated", while the claim's
derivation labels it "paused". -/
theorem update_paused_to_paused_labelled_updated :
    (repoUpdate dbC7 subC7upd 5).2.2 =
      [{ subscriptionId := "s1", userId := "u1", action := "updated"
         oldStatus := "paused", newStatus := "paused" }] ∧
    specActionLabel .paused .paused = "paused" := by
  exact ⟨rfl, rfl⟩

/-- Claim C7 (amended): for every persisted update that matches a stored
row, the recorded audit action equals the spec's derivation when the old
and new status differ, and is "updated" whenever they are equal (so a
paused-to-paused update is labelled "updated", not "paused"). -/
theorem repoUpdate_action_label (db : Db) (sub : Subscription) (now : ℤ)
    (r : Subscription) (h : db.subs.find? (fun t => t.id == sub.id) = some r) :
    (repoUpdate db sub now).2.2 =
      [{ subscriptionId := sub.id, userId := sub.userId
         action := if r.status = sub.status then "updated" else specActionLabel r.status sub.status
         oldStatus := statusToString r.status, newStatus := statusToString sub.status }] := by
  have hpr := List.find?_some h
  have hmem := List.mem_of_find?_eq_some h
  have haff : db.subs.any (fun t => t.id == sub.id) = true :=
    List.any_eq_true.mpr ⟨r, hmem, hpr⟩
  unfold repoUpdate
  rw [h, haff]
  simp [deriveAction_eq_spec]

/-- Claim C7 witness: resuming rowC7 (paused to active) is recorded with
action "resumed". -/
theorem repoUpdate_action_label_witness :
    (repoUpdate dbC7 subC7res 5).2.2 =
      [{ subscriptionId := "s1", userId := "u1", action := "resumed"
         oldStatus := "paused", newStatus := "active" }] := by
  rw [repoUpdate_action_label dbC7 subC7res 5 rowC7 rfl]
  rfl

/-- Claim C8 counterexample: with one total subscription (cancelled), zero
active and one new, the code reports 100 percent growth while the claim's
formula (divide by active count, 0 when it is 0) reports 0. -/
theorem growth_counterexample :
    calculateSubscriptionGrowth statsC8 = 100 ∧ specSubscriptionGrowth statsC8 = 0 := by
  constructor
  · show calculateSubscriptionGrowth statsC8 = 100
    unfold calculateSubscriptionGrowth goTruncTowardZero statsC8
    norm_num
  · show specSubscriptionGrowth statsC8 = 0
    unfold specSubscriptionGrowth statsC8
    norm_num

/-- Claim C8 (amended): the growth percentage equals
(newInPeriod + reactivations) divided by the total subscription count,
times 100, truncated toward zero at two decimal places, and 0 when the
total count is 0; the active count plays no role. -/
theorem growth_eq_amended (stats : SubscriptionStatsResponse) :
    calculateSubscriptionGrowth stats = amendedSubscriptionGrowth stats := by
  unfold calculateSubscriptionGrowth amendedSubscriptionGrowth
  split
  · rfl
  · have harg : ((stats.newSubscriptions + stats.reactivations : ℤ) : ℚ)
        / ((stats.totalSubscriptions : ℤ) : ℚ) * 100 * 100
        = ((stats.newSubscriptions + stats.reactivations : ℤ) : ℚ) * 10000
        / ((stats.totalSubscriptions : ℤ) : ℚ) := by
      rw [div_mul_eq_mul_div, div_mul_eq_mul_div, mul_assoc]
      norm_num
    rw [harg]

/-- Claim C3 counterexample: a pause request with startDate = endDate = 5
(both in the future of now = 0) is accepted - the error component is none -
although the claim requires rejection with InvalidPauseDates whenever
startDate is not strictly before endDate. -/
theorem pause_equal_dates_accepted :
    (PauseSubscription dbC3 0 "s1" "u1" 5 5).2.2 = none ∧ (0:ℤ) < 5 := by
  exact ⟨rfl, by decide⟩

/-- Claim C3 (amended): a pause request is rejected with
ErrInvalidPauseDates exactly when startDate is strictly after endDate or
strictly before the current time (so startDate = endDate is accepted, as
is startDate equal to the current instant), and on that rejection the
store is unchanged. -/
theorem pause_invalid_dates_iff (db : Db) (now : ℤ) (sid uid : String) (sd ed : ℤ) :
    ((PauseSubscription db now sid uid sd ed).2.2 = some .ErrInvalidPauseDates ↔
      (ed < sd ∨ sd < now)) ∧
    ((ed < sd ∨ sd < now) →
      PauseSubscription db now sid uid sd ed = (db, [], some .ErrInvalidPauseDates)) := by
  unfold PauseSubscription
  split
  · next hc => exact ⟨⟨fun _ => hc, fun _ => rfl⟩, fun _ => rfl⟩
  · next hc =>
    refine ⟨⟨fun hco => absurd ?_ hc, fun hd => absurd hd hc⟩, fun hd => absurd hd hc⟩
    exfalso
    revert hco
    split
    · simp
    · split
      · simp
      · split
        · simp
        · dsimp only
          split <;> simp

/-- Claim C3 witness: a pause whose start date lies in the past is
rejected with ErrInvalidPauseDates and the store is untouched. -/
theorem pause_invalid_dates_iff_witness :
    PauseSubscription dbC3 10 "s1" "u1" 3 20 = (dbC3, [], some .ErrInvalidPauseDates) :=
  (pause_invalid_dates_iff dbC3 10 "s1" "u1" 3 20).2 (Or.inr (by decide))

/-- Claim C4 counterexample: pausing a paused subscription and pausing a
cancelled subscription return the same error value,
ErrSubscriptionCancelled ("subscription is cancelled"), so the two
failures are not distinguishable and the paused case is not tied to the
paused status. -/
theorem pause_error_not_status_specific :
    (PauseSubscription dbC4p 0 "s1" "u1" 1 2).2.2 = some .ErrSubscriptionCancelled ∧
    (PauseSubscription dbC4c 0 "s2" "u1" 1 2).2.2 = some .ErrSubscriptionCancelled := by
  exact ⟨rfl, rfl⟩

/-- Claim C4 (amended): pausing an owned subscription whose status is not
active fails with the single error ErrSubscriptionCancelled - whose
message says the subscription is cancelled - regardless of whether the
current status is paused or cancelled, and the store is unchanged; the
error does not identify the current status. -/
theorem pause_nonactive_single_error (db : Db) (now : ℤ) (sid uid : String) (sd ed : ℤ)
    (sub : Subscription) (plan : MealPlan)
    (hdates : ¬(ed < sd ∨ sd < now))
    (hget : subsGetByID db sid = some (sub, plan))
    (hown : sub.userId = uid)
    (hstat : sub.status ≠ .active) :
    PauseSubscription db now sid uid sd ed = (db, [], some .ErrSubscriptionCancelled) := by
  unfold PauseSubscription
  rw [if_neg hdates, hget]
  simp only [hown]
  rw [if_neg (by simp), if_pos hstat]

/-- Claim C4 witness: pausing the paused subscription of dbC4p yields
exactly the cancelled-subscription error. -/
theorem pause_nonactive_single_error_witness :
    PauseSubscription dbC4p 0 "s1" "u1" 1 2 = (dbC4p, [], some .ErrSubscriptionCancelled) :=
  pause_nonactive_single_error dbC4p 0 "s1" "u1" 1 2
    { id := "s1", userId := "u1", mealPlanId := "p1"
      mealTypes := ["breakfast"], deliveryDays := ["monday"], allergies := ""
      totalPrice := 100, status := .paused
      pauseStartDate := some 1, pauseEndDate := some 2, createdAt := 0, updatedAt := 0 }
    planC1 (by decide) rfl rfl (by decide)

/-- When the validations pass, the plan resolves and the generated id is
fresh, CreateSubscription inserts exactly the entity literal it built,
logs one "created" audit call, and returns the inserted row joined with
its plan. -/
theorem createSubscription_success_shape (db : Db) (uid newId : String) (now : ℤ)
    (req : CreateSubscriptionRequest) (plan : MealPlan)
    (h1 : ValidateMealTypes req.mealTypes = none)
    (h2 : ValidateDeliveryDays req.deliveryDays = none)
    (hplan : mealPlanGetByID db req.mealPlanId = some plan)
    (hfresh : db.subs.find? (fun s => s.id == newId) = none) :
    CreateSubscription db (some uid) newId now req =
      ({ db with subs := db.subs ++ [mkCreatedSub uid newId now req plan] },
       [{ subscriptionId := newId, userId := uid, action := "created"
          oldStatus := "", newStatus := "active" }],
       .ok (mkCreatedSub uid newId now req plan) plan) := by
  have hplan2 : db.plans.find? (fun p => p.id == req.mealPlanId) = some plan := hplan
  unfold CreateSubscription
  rw [h1, h2, hplan]
  simp only [Option.isSome_none, Bool.false_eq_true, if_false]
  unfold repoCreate subsGetByID
  dsimp only
  have hfind : (db.subs ++ [mkCreatedSub uid newId now req plan]).find?
      (fun s => s.id == newId) = some (mkCreatedSub uid newId now req plan) := by
    rw [List.find?_append, hfresh]
    simp [mkCreatedSub, List.find?]
  simp only [mkCreatedSub] at hfind
  simp only [mkCreatedSub]
  rw [hfind]
  dsimp only
  rw [hplan2]
  rfl

/-- Claim C1: for every plan base price and every validated list of meal
types and delivery days, the created subscription's totalPrice is exactly
basePrice times the number of meal types times the number of delivery days
times 4.3, the row is persisted, and its status is active; in particular
the price for base 30000 with 2 meal types and 3 delivery days is exactly
774000 (float64 arithmetic idealised as exact rationals). -/
theorem create_price_formula :
    (∀ (db : Db) (uid newId : String) (now : ℤ) (req : CreateSubscriptionRequest) (plan : MealPlan),
      ValidateMealTypes req.mealTypes = none →
      ValidateDeliveryDays req.deliveryDays = none →
      mealPlanGetByID db req.mealPlanId = some plan →
      db.subs.find? (fun s => s.id == newId) = none →
      ∃ s, (CreateSubscription db (some uid) newId now req).2.2 = .ok s plan ∧
        s ∈ (CreateSubscription db (some uid) newId now req).1.subs ∧
        s.totalPrice = plan.price * (req.mealTypes.length : ℚ) * (req.deliveryDays.length : ℚ) * (43/10) ∧
        s.status = .active) ∧
    CalculateSubscriptionPrice 30000 ["breakfast", "lunch"] ["monday", "wednesday", "friday"] = 774000 := by
  constructor
  · intro db uid newId now req plan h1 h2 hplan hfresh
    refine ⟨mkCreatedSub uid newId now req plan, ?_, ?_, rfl, rfl⟩
    · rw [createSubscription_success_shape db uid newId now req plan h1 h2 hplan hfresh]
    · rw [createSubscription_success_shape db uid newId now req plan h1 h2 hplan hfresh]
      simp
  · show (30000:ℚ) * _ * _ * _ = _
    norm_num

/-- Claim C1 witness: the scenario instance - base price 30000, meal types
breakfast and lunch, delivery days monday, wednesday, friday - yields a
persisted active subscription priced exactly 774000 = 30000 * 2 * 3 * 4.3. -/
theorem create_price_formula_witness :
    ∃ s, (CreateSubscription dbC1 (some "u1") "sub1" 0 reqC1).2.2 = .ok s planC1 ∧
      s ∈ (CreateSubscription dbC1 (some "u1") "sub1" 0 reqC1).1.subs ∧
      s.totalPrice = planC1.price * (reqC1.mealTypes.length : ℚ) * (reqC1.deliveryDays.length : ℚ) * (43/10) ∧
      s.status = .active :=
  create_price_formula.1 dbC1 "u1" "sub1" 0 reqC1 planC1 rfl rfl rfl rfl

/-- Claim C9 counterexample: the plan p2 exists but is inactive, yet
CreateSubscription succeeds for a request referencing it - the claim
requires the InvalidMealPlan rejection for inactive plans. -/
theorem create_accepts_inactive_plan :
    planC9.isActive = false ∧
    okOutcome (CreateSubscription dbC9 (some "u1") "s9" 0 reqC9).2.2 = true := by
  exact ⟨rfl, rfl⟩

/-- Claim C9 (amended): with valid meal types and delivery days (and, for
Update, an owned non-cancelled subscription), Create and Update fail with
ErrInvalidMealPlan exactly when no meal plan with the requested id exists;
an existing but inactive plan is accepted, so subscriptions can be created
for inactive plans. -/
theorem invalid_meal_plan_iff_lookup_fails :
    (∀ (db : Db) (c : Option String) (newId : String) (now : ℤ) (req : CreateSubscriptionRequest),
      ValidateMealTypes req.mealTypes = none →
      ValidateDeliveryDays req.deliveryDays = none →
      ((CreateSubscription db c newId now req).2.2 = .err .ErrInvalidMealPlan ↔
        mealPlanGetByID db req.mealPlanId = none)) ∧
    (∀ (db : Db) (now : ℤ) (sid uid : String) (req : CreateSubscriptionRequest)
      (sub : Subscription) (plan : MealPlan),
      ValidateMealTypes req.mealTypes = none →
      ValidateDeliveryDays req.deliveryDays = none →
      subsGetByID db sid = some (sub, plan) →
      sub.userId = uid →
      sub.status ≠ .cancelled →
      ((UpdateSubscription db now sid uid req).2.2 = some .ErrInvalidMealPlan ↔
        mealPlanGetByID db req.mealPlanId = none)) := by
  constructor
  · intro db c newId now req h1 h2
    unfold CreateSubscription
    rw [h1, h2]
    simp only [Option.isSome_none, Bool.false_eq_true, if_false]
    cases hlk : mealPlanGetByID db req.mealPlanId with
    | none => simp
    | some p =>
      refine iff_of_false ?_ (by simp)
      cases c with
      | none => simp
      | some uid =>
        dsimp only
        split <;> simp
  · intro db now sid uid req sub plan h1 h2 hget hown hstat
    unfold UpdateSubscription
    rw [h1, h2, hget]
    simp only [Option.isSome_none, Bool.false_eq_true, if_false]
    rw [if_neg (by simp [hown]), if_neg hstat]
    cases hlk : mealPlanGetByID db req.mealPlanId with
    | none => simp
    | some p =>
      refine iff_of_false ?_ (by simp)
      dsimp only
      split <;> simp

/-- Claim C9 witness: with no plans in the store, a valid create request
is rejected with ErrInvalidMealPlan. -/
theorem invalid_meal_plan_iff_lookup_fails_witness :
    (CreateSubscription { subs := [], plans := [] } (some "u1") "sX" 0 reqC9).2.2
      = .err .ErrInvalidMealPlan :=
  (invalid_meal_plan_iff_lookup_fails.1 { subs := [], plans := [] } (some "u1") "sX" 0 reqC9
    rfl rfl).mpr rfl

/-- Claim C10: CreateSubscription reads the owner id from the request
context by an unchecked type assertion: whenever the context carries no
string user_id and execution reaches that point (validations passed, plan
resolved), the call panics with the store untouched; with a missing
user_id the outcome is never a success - only the panic or one of the
three pre-assertion validation errors; and whenever the context carries
uid, the persisted subscription's userId equals uid. -/
theorem create_user_id_from_context :
    (∀ (db : Db) (newId : String) (now : ℤ) (req : CreateSubscriptionRequest),
      ValidateMealTypes req.mealTypes = none →
      ValidateDeliveryDays req.deliveryDays = none →
      (mealPlanGetByID db req.mealPlanId).isSome = true →
      CreateSubscription db none newId now req = (db, [], .panicInterfaceConversion)) ∧
    (∀ (db : Db) (newId : String) (now : ℤ) (req : CreateSubscriptionRequest),
      (CreateSubscription db none newId now req).2.2 = .panicInterfaceConversion ∨
      (CreateSubscription db none newId now req).2.2 = .err .ErrInvalidMealTypes ∨
      (CreateSubscription db none newId now req).2.2 = .err .ErrInvalidDeliveryDays ∨
      (CreateSubscription db none newId now req).2.2 = .err .ErrInvalidMealPlan) ∧
    (∀ (db : Db) (uid newId : String) (now : ℤ) (req : CreateSubscriptionRequest) (plan : MealPlan),
      ValidateMealTypes req.mealTypes = none →
      ValidateDeliveryDays req.deliveryDays = none →
      mealPlanGetByID db req.mealPlanId = some plan →
      db.subs.find? (fun s => s.id == newId) = none →
      ∃ s, (CreateSubscription db (some uid) newId now req).2.2 = .ok s plan ∧
        s.userId = uid ∧ s ∈ (CreateSubscription db (some uid) newId now req).1.subs) := by
  refine ⟨?_, ?_, ?_⟩
  · intro db newId now req h1 h2 h3
    obtain ⟨plan, hp⟩ := Option.isSome_iff_exists.mp h3
    unfold CreateSubscription
    rw [h1, h2, hp]
    simp only [Option.isSome_none, Bool.false_eq_true, if_false]
  · intro db newId now req
    unfold CreateSubscription
    split
    · right; left; rfl
    · split
      · right; right; left; rfl
      · cases mealPlanGetByID db req.mealPlanId with
        | none => right; right; right; rfl
        | some p => left; rfl
  · intro db uid newId now req plan h1 h2 hplan hfresh
    refine ⟨mkCreatedSub uid newId now req plan, ?_, rfl, ?_⟩
    · rw [createSubscription_success_shape db uid newId now req plan h1 h2 hplan hfresh]
    · rw [createSubscription_success_shape db uid newId now req plan h1 h2 hplan hfresh]
      simp

/-- Claim C10 witness: a valid request with no user_id in the context
panics instead of returning an error, leaving the store untouched. -/
theorem create_user_id_from_context_witness :
    CreateSubscription dbC10 none "s1" 0 reqC10 = (dbC10, [], .panicInterfaceConversion) :=
  create_user_id_from_context.1 dbC10 "s1" 0 reqC10 rfl rfl rfl

/-- Mapping a function that preserves the weak pause invariant over an
invariant row list keeps every row invariant. -/
theorem weakInv_map (l : List Subscription) (f : Subscription → Subscription)
    (h : l.all pauseDatesWeakInv = true)
    (hf : ∀ s, pauseDatesWeakInv s = true → pauseDatesWeakInv (f s) = true) :
    (l.map f).all pauseDatesWeakInv = true := by
  rw [List.all_eq_true] at h ⊢
  intro x hx
  rcases List.mem_map.mp hx with ⟨a, ha, rfl⟩
  exact hf a (h a ha)

/-- A row of an invariant store satisfies the weak pause invariant. -/
theorem weakInv_of_mem (db : Db) (s : Subscription)
    (h : dbWeakInv db = true) (hm : s ∈ db.subs) : pauseDatesWeakInv s = true :=
  List.all_eq_true.mp h s hm

/-- repoUpdate keeps the store weakly invariant when the written entity's
pause window is weakly invariant: the affected row receives exactly the
entity's pause fields and every other row is untouched. -/
theorem repoUpdate_weakInv (db : Db) (sub : Subscription) (now : ℤ)
    (h : dbWeakInv db = true) (hs : pauseDatesWeakInv sub = true) :
    dbWeakInv (repoUpdate db sub now).1 = true := by
  unfold repoUpdate
  dsimp only
  split
  · unfold dbWeakInv at h ⊢
    dsimp only
    apply weakInv_map _ _ h
    intro s hsinv
    split
    · simpa [pauseDatesWeakInv] using hs
    · exact hsinv
  · exact h

/-- BulkUpdateStatus writes only status and updatedAt, so it keeps the
store weakly invariant. -/
theorem bulkUpdateStatus_weakInv (db : Db) (ids : List String)
    (st : SubscriptionStatus) (now : ℤ) (h : dbWeakInv db = true) :
    dbWeakInv (BulkUpdateStatus db ids st now).1 = true := by
  unfold BulkUpdateStatus
  split
  · exact h
  · unfold dbWeakInv at h ⊢
    dsimp only
    apply weakInv_map _ _ h
    intro s hsinv
    split
    · simpa [pauseDatesWeakInv] using hsinv
    · exact hsinv

/-- ForceCancelSubscription clears both pause dates on the affected row,
so it keeps the store weakly invariant. -/
theorem forceCancel_weakInv (db : Db) (now : ℤ) (i : String)
    (h : dbWeakInv db = true) :
    dbWeakInv (ForceCancelSubscription db now i).1 = true := by
  unfold ForceCancelSubscription
  dsimp only
  split
  · unfold dbWeakInv at h ⊢
    dsimp only
    apply weakInv_map _ _ h
    intro s hsinv
    split
    · simp [pauseDatesWeakInv]
    · exact hsinv
  · exact h

/-- A successful joined lookup returns a stored row. -/
theorem subsGetByID_mem (db : Db) (i : String) (sub : Subscription) (plan : MealPlan)
    (h : subsGetByID db i = some (sub, plan)) : sub ∈ db.subs := by
  unfold subsGetByID at h
  cases hf : db.subs.find? (fun s => s.id == i) with
  | none => rw [hf] at h; exact absurd h (by simp)
  | some s =>
    rw [hf] at h
    dsimp only at h
    cases hp : db.plans.find? (fun p => p.id == s.mealPlanId) with
    | none => rw [hp] at h; exact absurd h (by simp)
    | some p =>
      rw [hp] at h
      simp only [Option.some.injEq] at h
      have hs : s = sub := congrArg Prod.fst h
      rw [← hs]
      exact List.mem_of_find?_eq_some hf

/-- Claim C2 counterexample: dbC2 satisfies the claimed invariant (its one
row is paused with pauseStartDate 0 strictly before pauseEndDate 5), yet
after ProcessExpiredPauses at time 10 the row is active while both pause
dates remain set, violating "cleared whenever the status is active". -/
theorem processExpiredPauses_violates_claim_invariant :
    dbC2.subs.all pauseDatesClaimInv = true ∧
    (ProcessExpiredPauses dbC2 10).1.subs.all pauseDatesClaimInv = false ∧
    (ProcessExpiredPauses dbC2 10).1.subs.map (fun s => s.status) = [SubscriptionStatus.active] := by
  exact ⟨rfl, rfl, rfl⟩

/-- Claim C2 (amended): every operation - create, pause, resume, cancel,
reactivate, update, the batch ProcessExpiredPauses and the admin
force-cancel - preserves the weak pause-date invariant: pauseStartDate and
pauseEndDate both null, or both set with pauseStartDate ≤ pauseEndDate.
The original claim's stronger form fails: Pause accepts
pauseStartDate = pauseEndDate, and ProcessExpiredPauses moves rows to
active without clearing their pause dates. -/
theorem operations_preserve_weak_pause_invariant :
    (∀ (db : Db) (c : Option String) (newId : String) (now : ℤ) (req : CreateSubscriptionRequest),
      dbWeakInv db = true → dbWeakInv (CreateSubscription db c newId now req).1 = true) ∧
    (∀ (db : Db) (now : ℤ) (sid uid : String) (sd ed : ℤ),
      dbWeakInv db = true → dbWeakInv (PauseSubscription db now sid uid sd ed).1 = true) ∧
    (∀ (db : Db) (now : ℤ) (sid uid : String),
      dbWeakInv db = true → dbWeakInv (ResumeSubscription db now sid uid).1 = true) ∧
    (∀ (db : Db) (now : ℤ) (sid uid : String),
      dbWeakInv db = true → dbWeakInv (CancelSubscription db now sid uid).1 = true) ∧
    (∀ (db : Db) (now : ℤ) (sid uid : String),
      dbWeakInv db = true → dbWeakInv (ReactivateSubscription db now sid uid).1 = true) ∧
    (∀ (db : Db) (now : ℤ) (sid uid : String) (req : CreateSubscriptionRequest),
      dbWeakInv db = true → dbWeakInv (UpdateSubscription db now sid uid req).1 = true) ∧
    (∀ (db : Db) (now : ℤ),
      dbWeakInv db = true → dbWeakInv (ProcessExpiredPauses db now).1 = true) ∧
    (∀ (db : Db) (now : ℤ) (i : String),
      dbWeakInv db = true → dbWeakInv (ForceCancelSubscription db now i).1 = true) := by
  refine ⟨?_, ?_, ?_, ?_, ?_, ?_, ?_, ?_⟩
  · intro db c newId now req h
    unfold CreateSubscription
    split
    · exact h
    · split
      · exact h
      · cases mealPlanGetByID db req.mealPlanId with
        | none => exact h
        | some plan =>
          cases c with
          | none => exact h
          | some uid =>
            dsimp only [repoCreate]
            split <;>
              (unfold dbWeakInv at h ⊢
               rw [List.all_append]
               simp [h, pauseDatesWeakInv])
  · intro db now sid uid sd ed h
    unfold PauseSubscription
    split
    · exact h
    · next hc =>
      cases hg : subsGetByID db sid with
      | none => exact h
      | some sp =>
        dsimp only
        split
        · exact h
        · split
          · exact h
          · dsimp only
            apply repoUpdate_weakInv _ _ _ h
            have hle : sd ≤ ed := by
              rcases not_or.mp hc with ⟨hns, _⟩
              exact le_of_not_lt hns
            simp [pauseDatesWeakInv, hle]
  · intro db now sid uid h
    unfold ResumeSubscription
    cases hg : subsGetByID db sid with
    | none => exact h
    | some sp =>
      dsimp only
      split
      · exact h
      · split
        · exact h
        · dsimp only
          apply repoUpdate_weakInv _ _ _ h
          simp [pauseDatesWeakInv]
  · intro db now sid uid h
    unfold CancelSubscription
    cases hg : subsGetByID db sid with
    | none => exact h
    | some sp =>
      dsimp only
      split
      · exact h
      · split
        · exact h
        · dsimp only
          apply repoUpdate_weakInv _ _ _ h
          simp [pauseDatesWeakInv]
  · intro db now sid uid h
    unfold ReactivateSubscription
    cases hg : getSubscriptionByIDForReactivation db sid with
    | none => exact h
    | some sub =>
      dsimp only
      split
      · exact h
      · split
        · exact h
        · dsimp only
          apply repoUpdate_weakInv _ _ _ h
          simp [pauseDatesWeakInv]
  · intro db now sid uid req h
    unfold UpdateSubscription
    split
    · exact h
    · split
      · exact h
      · cases hg : subsGetByID db sid with
        | none => exact h
        | some sp =>
          dsimp only
          split
          · exact h
          · split
            · exact h
            · cases mealPlanGetByID db req.mealPlanId with
              | none => exact h
              | some plan =>
                dsimp only
                apply repoUpdate_weakInv _ _ _ h
                have hmem : sp.1 ∈ db.subs := by
                  apply subsGetByID_mem db sid sp.1 sp.2
                  rw [hg]
                have hinv := weakInv_of_mem db sp.1 h hmem
                simpa [pauseDatesWeakInv] using hinv
  · intro db now h
    unfold ProcessExpiredPauses
    dsimp only
    split
    · exact h
    · exact bulkUpdateStatus_weakInv db _ .active now h
  · intro db now i h
    exact forceCancel_weakInv db now i h

/-- Claim C2 witness: pausing the active subscription of dbC2w keeps the
weak pause-date invariant. -/
theorem operations_preserve_weak_pause_invariant_witness :
    dbWeakInv (PauseSubscription dbC2w 0 "s1" "u1" 1 2).1 = true :=
  operations_preserve_weak_pause_invariant.2.1 dbC2w 0 "s1" "u1" 1 2 rfl

/-- Claim C5 counterexample: ProcessExpiredPauses transitions the paused
row of dbC5 to active, and the admin force-cancel transitions the active
row of dbC5f to cancelled, yet neither path makes a single audit-writer
call. -/
theorem bulk_and_force_cancel_skip_audit :
    dbC5.subs.map (fun s => s.status) = [SubscriptionStatus.paused] ∧
    (ProcessExpiredPauses dbC5 10).1.subs.map (fun s => s.status) = [SubscriptionStatus.active] ∧
    (ProcessExpiredPauses dbC5 10).2.1 = [] ∧
    dbC5f.subs.map (fun s => s.status) = [SubscriptionStatus.active] ∧
    (ForceCancelSubscription dbC5f 5 "f1").1.subs.map (fun s => s.status) = [SubscriptionStatus.cancelled] ∧
    (ForceCancelSubscription dbC5f 5 "f1").2.1 = [] := by
  exact ⟨rfl, rfl, rfl, rfl, rfl, rfl⟩

/-- Claim C5 (amended): transitions persisted through the repository
Create and Update paths always trigger exactly one audit-writer call
carrying the subscription id, old status and new status; the bulk resume
performed by ProcessExpiredPauses/BulkUpdateStatus and the admin
force-cancel path trigger no audit call at all. -/
theorem audit_coverage :
    (∀ (db : Db) (sub : Subscription),
      (repoCreate db sub).2 =
        [{ subscriptionId := sub.id, userId := sub.userId, action := "created"
           oldStatus := "", newStatus := statusToString sub.status }]) ∧
    (∀ (db : Db) (sub : Subscription) (now : ℤ) (r : Subscription),
      db.subs.find? (fun t => t.id == sub.id) = some r →
      (repoUpdate db sub now).2.2 =
        [{ subscriptionId := sub.id, userId := sub.userId
           action := deriveAction (statusToString r.status) sub.status
           oldStatus := statusToString r.status, newStatus := statusToString sub.status }]) ∧
    (∀ (db : Db) (now : ℤ), (ProcessExpiredPauses db now).2.1 = []) ∧
    (∀ (db : Db) (now : ℤ) (i : String), (ForceCancelSubscription db now i).2.1 = []) ∧
    (∀ (db : Db) (ids : List String) (st : SubscriptionStatus) (now : ℤ),
      (BulkUpdateStatus db ids st now).2 = []) := by
  refine ⟨?_, ?_, ?_, ?_, ?_⟩
  · intro db sub
    rfl
  · intro db sub now r h
    have hpr := List.find?_some h
    have hmem := List.mem_of_find?_eq_some h
    have haff : db.subs.any (fun t => t.id == sub.id) = true :=
      List.any_eq_true.mpr ⟨r, hmem, hpr⟩
    unfold repoUpdate
    rw [h, haff]
    simp
  · intro db now
    unfold ProcessExpiredPauses BulkUpdateStatus
    dsimp only
    split
    · rfl
    · split <;> rfl
  · intro db now i
    unfold ForceCancelSubscription
    dsimp only
    split <;> rfl
  · intro db ids st now
    unfold BulkUpdateStatus
    split <;> rfl

/-- Claim C5 witness: persisting a pause of rowC5w through the repository
Update path triggers the audit call recording old status active, new
status paused, action "paused". -/
theorem audit_coverage_witness :
    (repoUpdate dbC5w subC5w 7).2.2 =
      [{ subscriptionId := "s1", userId := "u1", action := "paused"
         oldStatus := "active", newStatus := "paused" }] := by
  rw [audit_coverage.2.1 dbC5w subC5w 7 rowC5w rfl]
  rfl

end SeaBe
